import Mathlib

/-!
Shallow embedding of the verification core of the kona fault-proof program:
the host backend (hint routing and preimage fetching, from
src/bin/host/src/backend/online.rs), the single-chain verification driver
(from src/bin/client/src/single.rs) and the executor adapter
(from src/crates/proof/proof/src/executor.rs), together with theorems about
the claims of the specification.

Machine bytes are modelled as `Nat`, 32-byte hashes (`B256`) as lists of
bytes, and the shared key-value store as a function from keys to optional
byte strings. Asynchronous waiting under a wall-clock timeout is modelled by
discretising time: each iteration of the retry loop consumes one entry of an
environment list describing what the concurrent world (hint router, fetch
handlers of other in-flight requests) did during that iteration; exhausting
the list with the key still absent is the timeout.
-/

namespace Kona

/-- A 32-byte hash value (`alloy_primitives::B256`), modelled as a list of bytes. -/
abbrev B256 := List Nat

/-- Raw preimage bytes. -/
abbrev Bytes := List Nat

/-- A preimage key, modelled abstractly by a natural number
(the tagged-digest encoding is content-derived and out of scope). -/
abbrev Key := Nat

/-- The host's shared key-value store: a mapping from keys to stored bytes.
`none` means the key has not been written yet. -/
abbrev Store := Key → Option Bytes

/-- A parsed hint `(type, payload)` (`kona_proof::Hint<HT>`), generic in the
deployment's hint-type enum `α` exactly as `OnlineHostBackend` is generic in
`C::HintType`. -/
structure Hint (α : Type) where
  ty : α
  data : Bytes
deriving DecidableEq

/-- `kona_preimage::errors::PreimageOracleError`: the error variants that the
host backend produces in `route_hint` and `get_preimage`. -/
inductive PreimageOracleError where
  /-- Hint string failed to parse (carries the parse error's message). -/
  | HintParseFailed (msg : String)
  /-- A proactive hint's immediate fetch failed (carries the fetch error's message). -/
  | Other (msg : String)
  /-- The retry loop's wall-clock timeout elapsed. -/
  | Timeout
  /-- Key still absent after a completed wait. -/
  | KeyNotFound
deriving DecidableEq

/-- The mutable state of `OnlineHostBackend` that `route_hint` can touch:
the proactive hint-type set (immutable after construction) and the last-hint
slot. The configuration, store handle and providers are carried separately. -/
structure BackendState (α : Type) where
  /-- Hint types serviced eagerly (`proactive_hints` field). -/
  proactive_hints : List α
  /-- The most recently routed, unconsumed hint (`last_hint` field). -/
  last_hint : Option (Hint α)

/-- `OnlineHostBackend::route_hint` (src/bin/host/src/backend/online.rs,
lines 97-114). `parse` models `str::parse::<Hint<C::HintType>>` (the
`FromStr` instance lives outside this repository); `fetch_ok` models whether
`H::fetch_hint` succeeds when invoked on the proactive path. Returns the
call's result together with the backend state after the call. -/
def route_hint {α : Type} [DecidableEq α]
    (parse : String → Except String (Hint α)) (fetch_ok : Bool)
    (raw : String) (st : BackendState α) :
    Except PreimageOracleError Unit × BackendState α :=
  match parse raw with
  | .error e => (.error (.HintParseFailed e), st)
  | .ok parsed_hint =>
    if st.proactive_hints.contains parsed_hint.ty then
      if fetch_ok then (.ok (), st)
      else (.error (.Other "fetch failed"), st)
    else
      (.ok (), { st with last_hint := some parsed_hint })

/-- A concrete parse function over numeric hint types, used only to
instantiate the generic `route_hint` theorems at concrete inputs (the real
`FromStr` instance is deployment-specific and lives outside this
repository). -/
def hintParserForWitness (raw : String) : Except String (Hint Nat) :=
  if raw = "1 aa" then .ok ⟨1, [170]⟩
  else if raw = "2 bb" then .ok ⟨2, [187]⟩
  else .error "invalid hint type"

/-- What the concurrent world looks like to one iteration of the
`get_preimage` retry loop: the content of the last-hint slot when the loop
reads it, whether the `H::fetch_hint` invocation (made only when the slot is
set) succeeds, and the contents of the shared store after that fetch. -/
structure LoopEnv (α : Type) where
  /-- Value read from the `last_hint` slot at this iteration. -/
  lastHint : Option (Hint α)
  /-- Whether `H::fetch_hint` on that hint returns `Ok` at this iteration. -/
  fetchOk : Bool
  /-- The shared store as visible after this iteration's fetch completes. -/
  storeAfter : Store

/-- The retry loop body of `get_preimage` (lines 135-151):
`while preimage.is_none() { if let Some(hint) = last_hint { fetch; on error
continue; preimage = store.get(key) } }` under the wall-clock timeout,
discretised so that each iteration consumes one `LoopEnv`. Returns
`some p` when the loop exits normally with final `preimage` variable `p`,
and `none` when the timeout elapses (the environment list is exhausted with
the loop still running). -/
def retryLoop {α : Type} (key : Key) :
    List (LoopEnv α) → Option Bytes → Option (Option Bytes)
  | _, some v => some (some v)
  | [], none => none
  | e :: rest, none =>
    match e.lastHint with
    | none => retryLoop key rest none
    | some _ =>
      if e.fetchOk then retryLoop key rest (e.storeAfter key)
      else retryLoop key rest none

/-- `OnlineHostBackend::get_preimage` (lines 124-156): take a read snapshot
of the store, drop the lock, then run the retry loop under the timeout; a
timeout is `PreimageOracleError::Timeout`, and a completed wait with the key
still absent is `KeyNotFound`. -/
def get_preimage {α : Type} (key : Key) (store0 : Store)
    (envs : List (LoopEnv α)) : Except PreimageOracleError Bytes :=
  let preimage := store0 key
  match retryLoop key envs preimage with
  | none => .error .Timeout
  | some p =>
    match p with
    | some bytes => .ok bytes
    | none => .error .KeyNotFound

/-! ## Verification driver (src/bin/client/src/single.rs) -/

/-- A sealed block header as the driver sees it: the block number is the only
field the driver's decision logic inspects; the seal hash identifies it. -/
structure Header where
  number : Nat
  hash : B256
deriving DecidableEq

/-- The dispute's immutable parameters (`kona_proof::BootInfo`), restricted
to the fields `run` reads for its decision logic. -/
structure BootInfo where
  agreed_l2_output_root : B256
  claimed_l2_output_root : B256
  claimed_l2_block_number : Nat
deriving DecidableEq

/-- Failures of the derivation-and-execution section of `run` (pipeline
cursor creation, `OraclePipeline::new`, `Driver::advance_to_target`), which
are external collaborators; `run` propagates them via `From` conversions into
the corresponding `FaultProofProgramError` variants. -/
inductive DerivationError where
  /-- An `OracleProviderError` from pipeline-cursor creation. -/
  | oracle
  /-- A `PipelineErrorKind` from pipeline construction or stepping. -/
  | pipeline
  /-- A `DriverError` from `advance_to_target`. -/
  | driver
deriving DecidableEq

/-- `FaultProofProgramError` (src/bin/client/src/single.rs, lines 25-39). -/
inductive FaultProofProgramError where
  /-- `InvalidClaim(expected, actual)`: formatted "Expected {0}, actual {1}". -/
  | InvalidClaim (expected actual : B256)
  | OracleProviderError
  | PipelineError
  | Driver
deriving DecidableEq

/-- Conversion of a derivation-section failure into the `run` error type
(the `#[from]` conversions on `FaultProofProgramError`). -/
def DerivationError.lift : DerivationError → FaultProofProgramError
  | .oracle => .OracleProviderError
  | .pipeline => .PipelineError
  | .driver => .Driver

/-- `run` (src/bin/client/src/single.rs, lines 43-181), modelled from the
point where the prologue loads have succeeded: `boot` is the loaded
`BootInfo`, `safe_head` the sealed safe-head header recovered from the agreed
output root, and `derivation` the outcome of the whole derivation-and-
execution section (cursor + pipeline + `advance_to_target`), which on success
yields the final safe head's block number and the computed output root.
Returns the program result paired with a flag recording whether the
derivation-and-execution section was entered at all. -/
def run (boot : BootInfo) (safe_head : Header)
    (derivation : Except DerivationError (Nat × B256)) :
    Except FaultProofProgramError Unit × Bool :=
  -- If the claimed L2 block number is less than the safe head, the claim is invalid.
  if boot.claimed_l2_block_number < safe_head.number then
    (.error (.InvalidClaim boot.agreed_l2_output_root boot.claimed_l2_output_root), false)
  -- Trace extension: the state transition is already agreed upon.
  else if boot.agreed_l2_output_root = boot.claimed_l2_output_root then
    (.ok (), false)
  else
    match derivation with
    | .error e => (.error e.lift, true)
    | .ok (_number, output_root) =>
      if output_root ≠ boot.claimed_l2_output_root then
        (.error (.InvalidClaim output_root boot.claimed_l2_output_root), true)
      else
        (.ok (), true)

/-- `kona_proof::errors::OracleProviderError`, restricted to the variants
`fetch_safe_head_hash` can produce: a failed oracle read, or the defensive
`SliceConversion` error from `try_into`. -/
inductive OracleProviderError where
  | Preimage
  | SliceConversion
deriving DecidableEq

/-- `fetch_safe_head_hash` (src/bin/client/src/single.rs, lines 185-202):
send the `StartingL2Output` hint, read the agreed output root's preimage into
a 128-byte buffer with `get_exact` (exact-length contract: the delivered
bytes fill the buffer exactly or the read fails), then return
`output_preimage[96..128].try_into()`, which errors with `SliceConversion`
when the slice does not hold exactly 32 bytes. -/
def fetch_safe_head_hash (delivered : Bytes) : Except OracleProviderError B256 :=
  if delivered.length = 128 then
    let output_preimage := delivered
    let slice := (output_preimage.drop 96).take 32
    if slice.length = 32 then .ok slice else .error .SliceConversion
  else
    .error .Preimage

/-! ## Executor adapter (src/crates/proof/proof/src/executor.rs) -/

/-- `kona_executor::ExecutorError`, restricted to the variant the adapter
itself produces plus an abstract stand-in for the external builder's errors. -/
inductive ExecutorError where
  /-- `execute_payload`/`compute_output_root` called before any `update_safe_head`. -/
  | MissingExecutor
  /-- Any error the external `StatelessL2Builder` produces. -/
  | External (code : Nat)
deriving DecidableEq

/-- The external `StatelessL2Builder`, modelled as the record of the
arguments `StatelessL2Builder::new` receives; its block-building behaviour is
out of scope and is supplied as a function where needed. -/
structure StatelessL2Builder (Cfg P H Evm IF : Type) where
  rollup_config : Cfg
  evm_factory : Evm
  trie_provider : P
  trie_hinter : H
  parent_header : Header
  inspector_factory : IF

/-- `KonaExecutor` (src/crates/proof/proof/src/executor.rs, lines 25-43):
the adapter's configuration plus an optional inner stateless builder. -/
structure KonaExecutor (Cfg P H Evm IF : Type) where
  rollup_config : Cfg
  trie_provider : P
  trie_hinter : H
  evm_factory : Evm
  inspector_factory : IF
  inner : Option (StatelessL2Builder Cfg P H Evm IF)

/-- `KonaExecutor::new` (lines 53-68): all configuration stored, `inner: None`. -/
def KonaExecutor.new {Cfg P H Evm IF : Type} (rollup_config : Cfg)
    (trie_provider : P) (trie_hinter : H) (evm_factory : Evm)
    (inspector_factory : IF) : KonaExecutor Cfg P H Evm IF :=
  { rollup_config, trie_provider, trie_hinter, evm_factory, inspector_factory,
    inner := none }

/-- `KonaExecutor::update_safe_head` (lines 94-103): replace `inner` with a
fresh `StatelessL2Builder` anchored at the supplied header. -/
def KonaExecutor.update_safe_head {Cfg P H Evm IF : Type}
    (ex : KonaExecutor Cfg P H Evm IF) (header : Header) :
    KonaExecutor Cfg P H Evm IF :=
  { ex with
    inner := some
      { rollup_config := ex.rollup_config
        evm_factory := ex.evm_factory
        trie_provider := ex.trie_provider
        trie_hinter := ex.trie_hinter
        parent_header := header
        inspector_factory := ex.inspector_factory } }

/-- `KonaExecutor::execute_payload` (lines 106-114): `MissingExecutor` when
no inner builder exists, otherwise delegate to the external builder's
`build_block` (supplied as `build`; `Outcome` is its `BlockBuildingOutcome`). -/
def KonaExecutor.execute_payload {Cfg P H Evm IF Attrs Outcome : Type}
    (build : StatelessL2Builder Cfg P H Evm IF → Attrs →
      Except ExecutorError Outcome)
    (ex : KonaExecutor Cfg P H Evm IF) (attributes : Attrs) :
    Except ExecutorError Outcome :=
  match ex.inner with
  | none => .error .MissingExecutor
  | some e => build e attributes

/-- `KonaExecutor::compute_output_root` (lines 117-122): `MissingExecutor`
when no inner builder exists, otherwise delegate to the external builder's
`compute_output_root` (supplied as `compute`). -/
def KonaExecutor.compute_output_root {Cfg P H Evm IF : Type}
    (compute : StatelessL2Builder Cfg P H Evm IF → Except ExecutorError B256)
    (ex : KonaExecutor Cfg P H Evm IF) : Except ExecutorError B256 :=
  match ex.inner with
  | none => .error .MissingExecutor
  | some e => compute e

/-! ## Theorems about the claims -/

/-- C1: for every run that reaches the epilogue (both prologue guards passed
and the derivation-and-execution section completed with a computed output
root), `run` returns `Ok` when the computed output root equals
`boot.claimed_l2_output_root`, and `Err(InvalidClaim(computed, claimed))` —
computed root first, claimed root second — when they differ. -/
theorem run_epilogue_verdict (boot : BootInfo) (safe_head : Header)
    (number : Nat) (output_root : B256)
    (hreg : ¬ boot.claimed_l2_block_number < safe_head.number)
    (hne : boot.agreed_l2_output_root ≠ boot.claimed_l2_output_root) :
    (run boot safe_head (.ok (number, output_root))).1 =
      if output_root = boot.claimed_l2_output_root then .ok ()
      else .error (.InvalidClaim output_root boot.claimed_l2_output_root) := by
  by_cases h : output_root = boot.claimed_l2_output_root <;>
    simp [run, hreg, hne, h]

/-- Witness for C1, both branches at block 30: claimed root matched and
mismatched. -/
theorem run_epilogue_verdict_witness :
    (run ⟨List.replicate 32 0, List.replicate 32 1, 30⟩ ⟨20, List.replicate 32 2⟩
        (.ok (30, List.replicate 32 1))).1 =
      (if (List.replicate 32 1 : B256) = List.replicate 32 1 then .ok ()
       else .error (.InvalidClaim (List.replicate 32 1) (List.replicate 32 1))) ∧
    (run ⟨List.replicate 32 0, List.replicate 32 1, 30⟩ ⟨20, List.replicate 32 2⟩
        (.ok (30, List.replicate 32 3))).1 =
      (if (List.replicate 32 3 : B256) = List.replicate 32 1 then .ok ()
       else .error (.InvalidClaim (List.replicate 32 3) (List.replicate 32 1))) :=
  ⟨run_epilogue_verdict _ _ _ _ (by decide) (by decide),
   run_epilogue_verdict _ _ _ _ (by decide) (by decide)⟩

/-- Counterexample to C2 as stated: a boot info whose agreed and claimed
output roots are equal, but whose claimed block number (10) is below the
safe head's number (20); `run` does not succeed — the claim-regression check
fires first and returns `InvalidClaim`. -/
theorem run_trace_extension_cex :
    (⟨List.replicate 32 1, List.replicate 32 1, 10⟩ : BootInfo).agreed_l2_output_root =
      (⟨List.replicate 32 1, List.replicate 32 1, 10⟩ : BootInfo).claimed_l2_output_root ∧
    (run ⟨List.replicate 32 1, List.replicate 32 1, 10⟩ ⟨20, List.replicate 32 2⟩
        (.ok (20, List.replicate 32 1))).1 =
      .error (.InvalidClaim (List.replicate 32 1) (List.replicate 32 1)) :=
  ⟨rfl, rfl⟩

/-- C2 (amended): for every boot info whose agreed and claimed output roots
are equal and whose claimed block number is not below the safe head's number,
`run` succeeds without entering the derivation-and-execution section. -/
theorem run_trace_extension (boot : BootInfo) (safe_head : Header)
    (derivation : Except DerivationError (Nat × B256))
    (heq : boot.agreed_l2_output_root = boot.claimed_l2_output_root)
    (hreg : safe_head.number ≤ boot.claimed_l2_block_number) :
    run boot safe_head derivation = (.ok (), false) := by
  simp [run, heq, Nat.not_lt.mpr hreg]

/-- Witness for the amended C2: agreed root equals claimed root at block 20,
safe head at 20; `run` returns `Ok` with the derivation flag `false`. -/
theorem run_trace_extension_witness :
    run ⟨List.replicate 32 1, List.replicate 32 1, 20⟩ ⟨20, List.replicate 32 2⟩
        (.error .driver) = (.ok (), false) :=
  run_trace_extension _ _ _ (by decide) (by decide)

/-- C3: for every boot info and safe head with the claimed block number
strictly below the safe head's number, `run` fails with `InvalidClaim`
carrying the agreed output root as the expected value and the claimed output
root as the actual value, whatever the derivation section would have done. -/
theorem run_claim_regression (boot : BootInfo) (safe_head : Header)
    (derivation : Except DerivationError (Nat × B256))
    (h : boot.claimed_l2_block_number < safe_head.number) :
    (run boot safe_head derivation).1 =
      .error (.InvalidClaim boot.agreed_l2_output_root boot.claimed_l2_output_root) := by
  simp [run, h]

/-- Witness for C3: claimed block 10 against safe head 20. -/
theorem run_claim_regression_witness :
    (run ⟨List.replicate 32 0, List.replicate 32 1, 10⟩ ⟨20, List.replicate 32 2⟩
        (.ok (20, List.replicate 32 1))).1 =
      .error (.InvalidClaim (List.replicate 32 0) (List.replicate 32 1)) :=
  run_claim_regression _ _ _ (by decide)

/-- C5: for every prior backend state, routing a string that fails to parse
returns `Err(HintParseFailed)` and returns the backend state completely
unchanged — in particular the last-hint slot keeps its prior value. -/
theorem route_hint_parse_failure {α : Type} [DecidableEq α]
    (parse : String → Except String (Hint α)) (fetch_ok : Bool)
    (raw : String) (st : BackendState α) (e : String)
    (h : parse raw = .error e) :
    route_hint parse fetch_ok raw st = (.error (.HintParseFailed e), st) := by
  simp [route_hint, h]

/-- Witness for C5: a parser that rejects everything, applied with a
non-empty prior last-hint slot. -/
theorem route_hint_parse_failure_witness :
    route_hint (fun _ => (.error "invalid hint type" : Except String (Hint Nat)))
        true "junk" ⟨[], some ⟨0, [1]⟩⟩ =
      (.error (.HintParseFailed "invalid hint type"), ⟨[], some ⟨0, [1]⟩⟩) :=
  route_hint_parse_failure _ _ _ _ _ rfl

/-- C6: a successful `route_hint` of a non-proactive hint sets the last-hint
slot to exactly that hint, unconditionally discarding whatever the slot held
before — for any prior state — and consequently routing non-proactive hint
`a` then non-proactive hint `b` leaves only `b` in the slot. -/
theorem route_hint_overwrite {α : Type} [DecidableEq α]
    (parse : String → Except String (Hint α)) (fetch_ok_a fetch_ok_b : Bool)
    (raw_a raw_b : String) (st : BackendState α) (a b : Hint α)
    (ha : parse raw_a = .ok a) (hb : parse raw_b = .ok b)
    (hna : a.ty ∉ st.proactive_hints)
    (hnb : b.ty ∉ st.proactive_hints) :
    route_hint parse fetch_ok_a raw_a st =
      (.ok (), { st with last_hint := some a }) ∧
    (route_hint parse fetch_ok_b raw_b
        (route_hint parse fetch_ok_a raw_a st).2).2.last_hint = some b := by
  have h1 : route_hint parse fetch_ok_a raw_a st =
      (.ok (), { st with last_hint := some a }) := by
    simp [route_hint, ha, hna]
  refine ⟨h1, ?_⟩
  rw [h1]
  simp [route_hint, hb, hnb]

/-- Witness for C6: hint type 1 then hint type 2, neither proactive, starting
from a state whose slot holds a stale hint of type 0. -/
theorem route_hint_overwrite_witness :
    route_hint hintParserForWitness true "1 aa" ⟨[5], some ⟨0, [9]⟩⟩ =
      (.ok (), ⟨[5], some ⟨1, [170]⟩⟩) ∧
    (route_hint hintParserForWitness true "2 bb"
        (route_hint hintParserForWitness true "1 aa" ⟨[5], some ⟨0, [9]⟩⟩).2).2.last_hint =
      some ⟨2, [187]⟩ :=
  route_hint_overwrite _ _ _ _ _ _ _ _ rfl rfl (by decide) (by decide)

/-- Helper: the retry loop exits normally (before the timeout) whenever the
initial `preimage` variable is already set, or some iteration reads a set
last-hint slot, fetches successfully, and sees the key present afterwards;
the returned bytes come from the snapshot or from one of the iterations'
store views. -/
theorem retryLoop_reaches_key {α : Type} (key : Key)
    (envs : List (LoopEnv α)) (p : Option Bytes)
    (h : p.isSome ∨ ∃ e ∈ envs, e.lastHint.isSome ∧ e.fetchOk = true ∧
      (e.storeAfter key).isSome) :
    ∃ bytes, retryLoop key envs p = some (some bytes) ∧
      (p = some bytes ∨ ∃ e ∈ envs, e.storeAfter key = some bytes) := by
  induction envs generalizing p with
  | nil =>
    rcases h with hp | ⟨e, he, _⟩
    · obtain ⟨v, hv⟩ := Option.isSome_iff_exists.mp hp
      exact ⟨v, by simp [retryLoop, hv], Or.inl hv⟩
    · simp at he
  | cons e rest ih =>
    cases hp : p with
    | some v => exact ⟨v, by simp [retryLoop], Or.inl rfl⟩
    | none =>
      subst hp
      rcases h with hsome | ⟨f, hf, hhint, hok, hafter⟩
      · simp at hsome
      · rcases List.mem_cons.mp hf with hfe | hfrest
        · subst hfe
          obtain ⟨hint, hl⟩ := Option.isSome_iff_exists.mp hhint
          obtain ⟨bytes, hloop, hsrc⟩ :=
            ih (f.storeAfter key) (Or.inl hafter)
          refine ⟨bytes, by simp [retryLoop, hl, hok, hloop], Or.inr ?_⟩
          rcases hsrc with hfst | ⟨g, hg, hgkey⟩
          · exact ⟨f, List.mem_cons_self f rest, hfst⟩
          · exact ⟨g, List.mem_cons_of_mem f hg, hgkey⟩
        · have hrest : ∃ g ∈ rest, g.lastHint.isSome ∧ g.fetchOk = true ∧
              (g.storeAfter key).isSome := ⟨f, hfrest, hhint, hok, hafter⟩
          cases hl : e.lastHint with
          | none =>
            obtain ⟨bytes, hloop, hsrc⟩ := ih none (Or.inr hrest)
            refine ⟨bytes, by simp [retryLoop, hl, hloop], Or.inr ?_⟩
            rcases hsrc with hfst | ⟨g, hg, hgkey⟩
            · simp at hfst
            · exact ⟨g, List.mem_cons_of_mem e hg, hgkey⟩
          | some hint =>
            cases hek : e.fetchOk with
            | false =>
              obtain ⟨bytes, hloop, hsrc⟩ := ih none (Or.inr hrest)
              refine ⟨bytes, by simp [retryLoop, hl, hek, hloop], Or.inr ?_⟩
              rcases hsrc with hfst | ⟨g, hg, hgkey⟩
              · simp at hfst
              · exact ⟨g, List.mem_cons_of_mem e hg, hgkey⟩
            | true =>
              obtain ⟨bytes, hloop, hsrc⟩ :=
                ih (e.storeAfter key) (Or.inr hrest)
              refine ⟨bytes, by simp [retryLoop, hl, hek, hloop], Or.inr ?_⟩
              rcases hsrc with hfst | ⟨g, hg, hgkey⟩
              · exact ⟨e, List.mem_cons_self e rest, hfst⟩
              · exact ⟨g, List.mem_cons_of_mem e hg, hgkey⟩

/-- Counterexample to C4 as stated: the key's bytes are present in the store
visible during the single waiting iteration (they were inserted without going
through this call's last-hint slot, e.g. by a proactive fetch), yet
`get_preimage` times out, because with the last-hint slot empty the loop
never re-reads the store. -/
theorem get_preimage_missed_insertion_cex :
    ((⟨none, true, fun k => if k = 0 then some [7] else none⟩ :
        LoopEnv Nat).storeAfter 0).isSome = true ∧
    get_preimage 0 (fun _ => none)
        [(⟨none, true, fun k => if k = 0 then some [7] else none⟩ :
          LoopEnv Nat)] = .error .Timeout :=
  ⟨rfl, rfl⟩

/-- C4 (amended): `get_preimage` returns stored bytes and does not time out
whenever the key is present at the initial snapshot, or some iteration of the
waiting loop reads a set last-hint slot (any hint, related or not), its fetch
succeeds, and the key is present in the store after that fetch; iterations
whose fetch fails only log and continue, and do not re-read the store, so an
insertion is observed only through the snapshot or a successful own fetch. -/
theorem get_preimage_retry_success {α : Type} (key : Key) (store0 : Store)
    (envs : List (LoopEnv α))
    (h : (store0 key).isSome ∨ ∃ e ∈ envs, e.lastHint.isSome ∧
      e.fetchOk = true ∧ (e.storeAfter key).isSome) :
    ∃ bytes, get_preimage key store0 envs = .ok bytes ∧
      (store0 key = some bytes ∨ ∃ e ∈ envs, e.storeAfter key = some bytes) := by
  obtain ⟨bytes, hloop, hsrc⟩ := retryLoop_reaches_key key envs (store0 key) h
  exact ⟨bytes, by simp [get_preimage, hloop], hsrc⟩

/-- Witness for the amended C4: key 3 absent from the snapshot, inserted by
the second iteration's successful fetch (the first iteration's fetch fails
and is retried). -/
theorem get_preimage_retry_success_witness :
    ∃ bytes, get_preimage 3 (fun _ => none)
        [(⟨some ⟨1, [170]⟩, false, fun _ => none⟩ : LoopEnv Nat),
         ⟨some ⟨2, [187]⟩, true, fun k => if k = 3 then some [7, 8] else none⟩] =
      .ok bytes ∧
      ((fun _ => (none : Option Bytes)) 3 = some bytes ∨
        ∃ e ∈ [(⟨some ⟨1, [170]⟩, false, fun _ => none⟩ : LoopEnv Nat),
          ⟨some ⟨2, [187]⟩, true, fun k => if k = 3 then some [7, 8] else none⟩],
          e.storeAfter 3 = some bytes) :=
  get_preimage_retry_success 3 (fun _ => none) _ (Or.inr
    ⟨⟨some ⟨2, [187]⟩, true, fun k => if k = 3 then some [7, 8] else none⟩,
      by simp, rfl, rfl, rfl⟩)

/-- Helper: with the initial `preimage` variable unset and the key absent
from every store view the loop can observe, the retry loop never exits: the
timeout elapses. -/
theorem retryLoop_key_absent {α : Type} (key : Key)
    (envs : List (LoopEnv α)) (h : ∀ e ∈ envs, e.storeAfter key = none) :
    retryLoop key envs none = (none : Option (Option Bytes)) := by
  induction envs with
  | nil => rfl
  | cons e rest ih =>
    have he : e.storeAfter key = none := h e (List.mem_cons_self e rest)
    have hr : ∀ f ∈ rest, f.storeAfter key = none :=
      fun f hf => h f (List.mem_cons_of_mem e hf)
    cases hl : e.lastHint with
    | none => simp [retryLoop, hl, ih hr]
    | some hint =>
      cases hek : e.fetchOk with
      | true => simp [retryLoop, hl, hek, he, ih hr]
      | false => simp [retryLoop, hl, hek, ih hr]

/-- C7: when the key's bytes are never inserted into the store —
absent from the initial snapshot and from every store view the loop
observes — `get_preimage` fails with `Timeout`; in this model the timeout
fires exactly when the whole iteration budget (the discretised 60-second
wall clock) has been consumed. -/
theorem get_preimage_timeout {α : Type} (key : Key) (store0 : Store)
    (envs : List (LoopEnv α)) (h0 : store0 key = none)
    (h : ∀ e ∈ envs, e.storeAfter key = none) :
    get_preimage key store0 envs = .error .Timeout := by
  simp [get_preimage, h0, retryLoop_key_absent key envs h]

/-- Witness for C7: key 9 never inserted; two waiting iterations (one with a
hint whose fetch succeeds but does not produce the key) end in `Timeout`. -/
theorem get_preimage_timeout_witness :
    get_preimage 9 (fun _ => none)
        [(⟨none, true, fun _ => none⟩ : LoopEnv Nat),
         ⟨some ⟨1, [170]⟩, true, fun k => if k = 3 then some [7] else none⟩] =
      .error .Timeout :=
  get_preimage_timeout 9 (fun _ => none) _ rfl (by
    intro e he
    simp only [List.mem_cons, List.mem_singleton] at he
    rcases he with rfl | rfl | he
    · rfl
    · rfl
    · simp at he)

/-- Helper: whenever the retry loop exits normally, the final `preimage`
variable is set (the loop condition is that it is unset). -/
theorem retryLoop_exit_isSome {α : Type} (key : Key) :
    ∀ (envs : List (LoopEnv α)) (p q : Option Bytes),
    retryLoop key envs p = some q → q.isSome := by
  intro envs
  induction envs with
  | nil =>
    intro p q hpq
    cases p with
    | some v => simp [retryLoop] at hpq; simp [← hpq]
    | none => simp [retryLoop] at hpq
  | cons e rest ih =>
    intro p q hpq
    cases p with
    | some v => simp [retryLoop] at hpq; simp [← hpq]
    | none =>
      cases hl : e.lastHint with
      | none =>
        simp only [retryLoop, hl] at hpq
        exact ih none q hpq
      | some hint =>
        simp only [retryLoop, hl] at hpq
        cases hek : e.fetchOk with
        | true => rw [hek] at hpq; simp at hpq; exact ih _ q hpq
        | false => rw [hek] at hpq; simp at hpq; exact ih none q hpq

/-- C10: `get_preimage` never returns `KeyNotFound`: the retry loop can only
exit with the preimage present, and the initial fast path also requires
presence, so the `KeyNotFound` branch after the wait is unreachable. -/
theorem get_preimage_never_keyNotFound {α : Type} (key : Key) (store0 : Store)
    (envs : List (LoopEnv α)) :
    get_preimage key store0 envs ≠ .error .KeyNotFound := by
  intro hcontra
  simp only [get_preimage] at hcontra
  cases hloop : retryLoop key envs (store0 key) with
  | none => rw [hloop] at hcontra; simp at hcontra
  | some q =>
    have hq := retryLoop_exit_isSome key envs (store0 key) q hloop
    cases q with
    | none => simp at hq
    | some bytes => rw [hloop] at hcontra; simp at hcontra

/-- C8: for every 128-byte output-root preimage the oracle delivers,
`fetch_safe_head_hash` succeeds and returns a 32-byte hash that is bytes
`[96, 128)` of the preimage, verbatim. -/
theorem fetch_safe_head_hash_verbatim (delivered : Bytes)
    (h : delivered.length = 128) :
    ∃ hash, fetch_safe_head_hash delivered = .ok hash ∧ hash.length = 32 ∧
      ∀ i, i < 32 → hash[i]? = delivered[96 + i]? := by
  refine ⟨(delivered.drop 96).take 32, ?_, ?_, ?_⟩
  · simp [fetch_safe_head_hash, h]
  · simp [h]
  · intro i hi
    rw [List.getElem?_take, if_pos hi, List.getElem?_drop]

/-- Witness for C8 at the concrete 128-byte preimage `0, 1, ..., 127`. -/
theorem fetch_safe_head_hash_verbatim_witness :
    ∃ hash, fetch_safe_head_hash (List.range 128) = .ok hash ∧
      hash.length = 32 ∧ ∀ i, i < 32 → hash[i]? = (List.range 128)[96 + i]? :=
  fetch_safe_head_hash_verbatim (List.range 128) (by simp)

/-- C9: on a freshly constructed `KonaExecutor` (no `update_safe_head` call
yet) both `execute_payload` and `compute_output_root` fail with
`MissingExecutor`; and every `update_safe_head` call unconditionally replaces
the inner builder — whatever it was — with a fresh `StatelessL2Builder`
anchored at the supplied header and built from the stored configuration. -/
theorem konaExecutor_lifecycle {Cfg P H Evm IF Attrs Outcome : Type}
    (cfg : Cfg) (tp : P) (th : H) (evm : Evm) (insp : IF)
    (build : StatelessL2Builder Cfg P H Evm IF → Attrs →
      Except ExecutorError Outcome)
    (compute : StatelessL2Builder Cfg P H Evm IF → Except ExecutorError B256)
    (attributes : Attrs) (ex : KonaExecutor Cfg P H Evm IF) (header : Header) :
    KonaExecutor.execute_payload build
        (KonaExecutor.new cfg tp th evm insp) attributes =
      .error .MissingExecutor ∧
    KonaExecutor.compute_output_root compute
        (KonaExecutor.new cfg tp th evm insp) =
      .error .MissingExecutor ∧
    (KonaExecutor.update_safe_head ex header).inner =
      some ⟨ex.rollup_config, ex.evm_factory, ex.trie_provider,
        ex.trie_hinter, header, ex.inspector_factory⟩ :=
  ⟨rfl, rfl, rfl⟩

end Kona
